import Mathlib

/-!
Shallow embedding of the key-generation and host-selection subsystem of the
`bitten-back` service (package `services`, file `keyService.go`, together with
the host model `models/host.go`, the free-tier constant `services/const.go`
and the repository DTO `services/dto/keyServiceDTO.go`).

Machine strings are Lean `String`s; Go byte-level URL escaping from `net/url`
(`url.Values.Encode`, `url.QueryEscape`, `url.PathEscape`) is modelled on the
UTF-8 bytes of the string, represented as `Nat`s below 256.  Fallible Go
functions returning `(T, error)` are modelled as `Except String T`; the
repository collaborators, whose errors are inspected with
`errors.Is(err, gorm.ErrRecordNotFound)`, return `Except RepoError T` where
`RepoError` distinguishes the record-not-found sentinel from any other
(infrastructure) error.
-/

/-- The database model for a host (`models.Host`).  Timestamps and the
soft-delete marker are irrelevant to key generation and omitted. -/
structure Host where
  ID : Nat
  HostName : String
  Country : String
  City : String
  Region : String
  Provider : String
  Address : String
  Port : String
  Protocol : String
  Network : String
  PublicKey : String
  Flow : String
  RSID : String
  SecurityType : String
  SNI : String
  Fingerprint : String
  IsPrivate : Bool
  IsOnline : Bool
  IsFreeTier : Bool
  deriving Repr, DecidableEq

/-- The database model for a user (`models.User`), restricted to the fields
key generation reads.  The UUID is modelled as its canonical string form. -/
structure User where
  ID : String
  Name : String
  deriving Repr, DecidableEq

/-- `dto.GenerateUserKeyResult`. -/
structure GenerateUserKeyResult where
  VlessKey : String
  HasActiveSubscription : Bool
  deriving Repr, DecidableEq

/-- Outcome of a repository call: `recordNotFound` models
`gorm.ErrRecordNotFound`; `infra msg` models any other error, carrying its
message (Go wraps it with `fmt.Errorf(\"...: %w\", err)`). -/
inductive RepoError where
  | recordNotFound
  | infra (msg : String)
  deriving Repr, DecidableEq

deriving instance DecidableEq for Except

/-- `strings.ToLower`, restricted to the ASCII case mapping (`Char.toLower`
maps `A`–`Z` to `a`–`z` and fixes everything else; Go's Unicode mapping
agrees with it on ASCII, which is all the comparisons below inspect). -/
def stringToLower (s : String) : String :=
  String.mk (s.data.map Char.toLower)

/-- The UTF-8 bytes of a character, as `Nat`s below 256.  Go's `net/url`
escaping operates on the bytes of the string. -/
def utf8Bytes (c : Char) : List Nat :=
  let n := c.toNat
  if n < 0x80 then [n]
  else if n < 0x800 then [0xC0 + n / 0x40, 0x80 + n % 0x40]
  else if n < 0x10000 then
    [0xE0 + n / 0x1000, 0x80 + (n / 0x40) % 0x40, 0x80 + n % 0x40]
  else
    [0xF0 + n / 0x40000, 0x80 + (n / 0x1000) % 0x40,
     0x80 + (n / 0x40) % 0x40, 0x80 + n % 0x40]

/-- Is the byte an ASCII alphanumeric or one of `- _ . ~` (RFC 3986
unreserved)?  These are never escaped by `net/url`. -/
def isUnreservedByte (b : Nat) : Bool :=
  (0x61 ≤ b && b ≤ 0x7A) || (0x41 ≤ b && b ≤ 0x5A) || (0x30 ≤ b && b ≤ 0x39)
  || b == 0x2D || b == 0x5F || b == 0x2E || b == 0x7E

/-- `net/url.shouldEscape` for mode `encodeQueryComponent`: every byte other
than the unreserved ones is escaped (the reserved set `$&+,/:;=?@` is escaped
in query components). -/
def shouldEscapeQuery (b : Nat) : Bool :=
  !(isUnreservedByte b)

/-- `net/url.shouldEscape` for mode `encodePathSegment`: unreserved bytes are
kept; of the reserved set `$&+,/:;=?@` only `/ ; , ?` are escaped; everything
else is escaped. -/
def shouldEscapePathSegment (b : Nat) : Bool :=
  if isUnreservedByte b then false
  else if b == 0x24 || b == 0x26 || b == 0x2B || b == 0x2C || b == 0x2F
       || b == 0x3A || b == 0x3B || b == 0x3D || b == 0x3F || b == 0x40 then
    b == 0x2F || b == 0x3B || b == 0x2C || b == 0x3F
  else true

/-- Uppercase hexadecimal digit, as used by `net/url.escape`. -/
def hexUpper (n : Nat) : Char :=
  if n == 0 then '0' else if n == 1 then '1' else if n == 2 then '2'
  else if n == 3 then '3' else if n == 4 then '4' else if n == 5 then '5'
  else if n == 6 then '6' else if n == 7 then '7' else if n == 8 then '8'
  else if n == 9 then '9' else if n == 10 then 'A' else if n == 11 then 'B'
  else if n == 12 then 'C' else if n == 13 then 'D' else if n == 14 then 'E'
  else 'F'

/-- `net/url.escape`: each byte is either kept, replaced by `+` (a space in
query-component mode), or percent-encoded with uppercase hex digits. -/
def escapeBytes (shouldEsc : Nat → Bool) (spaceAsPlus : Bool) (s : String) : String :=
  String.mk ((s.data.flatMap utf8Bytes).flatMap (fun b =>
    if spaceAsPlus && b == 0x20 then ['+']
    else if shouldEsc b then ['%', hexUpper (b / 16), hexUpper (b % 16)]
    else [Char.ofNat b]))

/-- `url.QueryEscape`. -/
def queryEscape (s : String) : String :=
  escapeBytes shouldEscapeQuery true s

/-- `url.PathEscape`. -/
def pathEscape (s : String) : String :=
  escapeBytes shouldEscapePathSegment false s

/-- `url.Values`, as an association list of single-valued entries (the key
service only ever uses `Set`, which keeps one value per key). -/
abbrev Values : Type := List (String × String)

/-- `url.Values.Set`: replace any binding of `key` by the single value
`value`. -/
def Values.set (q : Values) (key value : String) : Values :=
  (List.filter (fun p => p.1 ≠ key) q) ++ [(key, value)]

/-- `url.Values.Get`: the first value bound to `key`, if any. -/
def Values.get : Values → String → Option String
  | [], _ => none
  | (k, v) :: rest, key => if k = key then some v else Values.get rest key

/-- Lexicographic strict order on character lists, by code point (for valid
UTF-8 this agrees with Go's byte-wise string order used by `sort.Strings`). -/
def charListLtb : List Char → List Char → Bool
  | [], [] => false
  | [], _ :: _ => true
  | _ :: _, [] => false
  | a :: as, b :: bs =>
    if a.toNat < b.toNat then true
    else if b.toNat < a.toNat then false
    else charListLtb as bs

/-- Strict string order, byte-lexicographic as in Go. -/
def strLtb (a b : String) : Bool := charListLtb a.data b.data

/-- Insert an entry into a list sorted by key (ascending). -/
def insertByKey (p : String × String) : Values → Values
  | [] => [p]
  | q :: qs => if strLtb q.1 p.1 then q :: insertByKey p qs else p :: q :: qs

/-- Sort entries by key, ascending: `url.Values.Encode` emits parameters in
sorted key order. -/
def sortByKey : Values → Values
  | [] => []
  | p :: ps => insertByKey p (sortByKey ps)

/-- Join strings with `&` separators. -/
def joinAmp : List String → String
  | [] => ""
  | [x] => x
  | x :: y :: xs => x ++ "&" ++ joinAmp (y :: xs)

/-- `url.Values.Encode`: keys sorted ascending, keys and values
query-escaped, entries joined with `&`. -/
def Values.encode (q : Values) : String :=
  joinAmp ((sortByKey q).map (fun p => queryEscape p.1 ++ "=" ++ queryEscape p.2))

/-- `services.FreeTierUserUUID` (`const.go`): the canonical string of the
fixed free-tier placeholder UUID. -/
def FreeTierUserUUID : String := "5ccc43c4-3c3e-4220-a878-761aa1182dd9"

/-- The `if country != nil && *country != ""` guard of the fallback retry in
`GenerateVlessKeyForUser` / `GenerateFreeVlessKey`. -/
def countryNonEmpty : Option String → Bool
  | none => false
  | some c => c != ""

/-- The query-parameter construction of `keyService.constructVlessURL`
(lines 138–169): the sequence of `queryParams.Set` calls, or the Reality
validation error. -/
def vlessQueryParams (host : Host) : Except String Values :=
  let queryParams : Values := []
  let queryParams :=
    if host.SecurityType != "" && host.SecurityType != "none" then
      queryParams.set "security" host.SecurityType
    else queryParams
  let queryParams :=
    if host.SNI != "" then queryParams.set "sni" host.SNI else queryParams
  let queryParams :=
    if host.Fingerprint != "" then queryParams.set "fp" host.Fingerprint else queryParams
  if stringToLower host.SecurityType == "reality" && host.PublicKey == "" then
    .error ("selected host (ID: " ++ toString host.ID
      ++ ") is configured for Reality but missing public key (pbk)")
  else
    let queryParams :=
      if stringToLower host.SecurityType == "reality" then
        let queryParams := queryParams.set "pbk" host.PublicKey
        if host.RSID != "" then queryParams.set "sid" host.RSID else queryParams
      else queryParams
    let queryParams :=
      if host.Flow != "" then queryParams.set "flow" host.Flow else queryParams
    let queryParams :=
      if host.Network != "" then queryParams.set "type" host.Network
      else queryParams.set "type" "tcp"
    .ok queryParams

/-- `keyService.constructVlessURL`: build the query parameters, encode them,
assemble `vless://<id>@<addr>:<port>[?<query>][#<escaped remarks>]`. -/
def constructVlessURL (vlessUserID : String) (host : Host) (remarks : String) :
    Except String String :=
  match vlessQueryParams host with
  | .error e => .error e
  | .ok queryParams =>
    let queryString := Values.encode queryParams
    let vlessURL :=
      if queryString != "" then
        "vless://" ++ vlessUserID ++ "@" ++ host.Address ++ ":" ++ host.Port
          ++ "?" ++ queryString
      else
        "vless://" ++ vlessUserID ++ "@" ++ host.Address ++ ":" ++ host.Port
    let vlessURL :=
      if remarks != "" then vlessURL ++ "#" ++ pathEscape remarks else vlessURL
    .ok vlessURL

/-- The three repository collaborators held by `keyService` (contexts
dropped; `GetRandomActiveHost(ctx, country *string, isFreeTier *bool)` takes
its two pointer filters as `Option`s). -/
structure KeyServiceRepos where
  userRepo : String → Except RepoError User
  subscriptionRepo : String → Except RepoError Bool
  hostRepo : Option String → Option Bool → Except RepoError Host

/-- `keyService.GenerateVlessKeyForUser` (part of `keyService.go`): resolve
the user, check the subscription (errors degrade to `false`), pick the tier,
select a host with the single country-relaxation retry, encode. -/
def GenerateVlessKeyForUser (s : KeyServiceRepos) (userID : String)
    (remarks : String) (country : Option String) :
    Except String GenerateUserKeyResult :=
  match s.userRepo userID with
  | .error .recordNotFound => .error ("user with ID " ++ userID ++ " not found")
  | .error (.infra msg) => .error ("could not retrieve user: " ++ msg)
  | .ok user =>
    let hasActiveSubscription : Bool :=
      match s.subscriptionRepo userID with
      | .ok b => b
      | .error _ => false
    let hostTier : Bool := if hasActiveSubscription then false else true
    let firstTry := s.hostRepo country (some hostTier)
    let selected :=
      match firstTry with
      | .error .recordNotFound =>
        if countryNonEmpty country then s.hostRepo none (some hostTier) else firstTry
      | _ => firstTry
    match selected with
    | .error .recordNotFound =>
      .error "no active hosts available to generate key for the specified criteria"
    | .error (.infra msg) => .error ("could not retrieve an active host: " ++ msg)
    | .ok host =>
      match constructVlessURL user.ID host remarks with
      | .error e => .error e
      | .ok vlessURL =>
        .ok { VlessKey := vlessURL, HasActiveSubscription := hasActiveSubscription }

/-- `keyService.GenerateFreeVlessKey`: always the free tier, the fixed
placeholder client UUID, no user or subscription lookup. -/
def GenerateFreeVlessKey (s : KeyServiceRepos) (remarks : String)
    (country : Option String) : Except String String :=
  let isFreeHost : Bool := true
  let firstTry := s.hostRepo country (some isFreeHost)
  let selected :=
    match firstTry with
    | .error .recordNotFound =>
      if countryNonEmpty country then s.hostRepo none (some isFreeHost) else firstTry
    | _ => firstTry
  match selected with
  | .error .recordNotFound => .error "no active free hosts available to generate key"
  | .error (.infra msg) => .error ("could not retrieve an active free host: " ++ msg)
  | .ok host => constructVlessURL FreeTierUserUUID host remarks

/-! ### Concrete fixtures (Scenario A of the spec and variants) -/

/-- Scenario A's host: plain `none`-security free-tier host. -/
def hostA : Host :=
  { ID := 1, HostName := "", Country := "", City := "", Region := "",
    Provider := "", Address := "1.2.3.4", Port := "443", Protocol := "vless",
    Network := "", PublicKey := "", Flow := "", RSID := "",
    SecurityType := "none", SNI := "", Fingerprint := "",
    IsPrivate := false, IsOnline := true, IsFreeTier := true }

/-- Scenario A's host with uppercase security type `NONE`. -/
def hostNONE : Host := { hostA with SecurityType := "NONE" }

/-- Scenario A's host with mixed-case `Reality` security and a public key. -/
def hostRealityPBK : Host :=
  { hostA with SecurityType := "Reality", PublicKey := "PBK123" }

/-- Scenario A's host with `tls` security. -/
def hostTLS : Host := { hostA with SecurityType := "tls" }

/-- Scenario C's host: `reality` security with an empty public key. -/
def hostBadReality : Host := { hostA with SecurityType := "reality" }

/-- A sample user record. -/
def userA : User := { ID := "00000000-0000-0000-0000-000000000001", Name := "A" }

/-- Repositories for which every country-filtered host lookup misses but the
unfiltered lookup succeeds (Scenario D). -/
def reposFallbackW : KeyServiceRepos :=
  { userRepo := fun _ => .ok userA
    subscriptionRepo := fun _ => .ok false
    hostRepo := fun country _ =>
      match country with
      | some _ => .error .recordNotFound
      | none => .ok hostA }

/-- Repositories whose subscription check fails with an infrastructure error
(Scenario F). -/
def reposSubsFailW : KeyServiceRepos :=
  { userRepo := fun _ => .ok userA
    subscriptionRepo := fun _ => .error (.infra "subscription store down")
    hostRepo := fun _ _ => .ok hostA }

/-- Repositories with no online host at all (Scenario E). -/
def reposNotFoundW : KeyServiceRepos :=
  { userRepo := fun _ => .ok userA
    subscriptionRepo := fun _ => .ok true
    hostRepo := fun _ _ => .error .recordNotFound }

/-- Repositories whose host lookup fails with an infrastructure error. -/
def reposInfraW : KeyServiceRepos :=
  { userRepo := fun _ => .ok userA
    subscriptionRepo := fun _ => .ok false
    hostRepo := fun _ _ => .error (.infra "connection refused") }

/-- Repositories that always serve `hostA`. -/
def reposFreeW : KeyServiceRepos :=
  { userRepo := fun _ => .ok userA
    subscriptionRepo := fun _ => .ok false
    hostRepo := fun _ _ => .ok hostA }

/-- Same host repository as `reposFreeW`, but failing user and subscription
stores. -/
def reposFreeAltW : KeyServiceRepos :=
  { userRepo := fun _ => .error .recordNotFound
    subscriptionRepo := fun _ => .error (.infra "down")
    hostRepo := fun _ _ => .ok hostA }

/-! ### Association-list lemmas for `url.Values` -/

theorem Values.get_append (l l' : Values) (k : String) :
    Values.get (l ++ l') k = ((Values.get l k).orElse (fun _ => Values.get l' k)) := by
  induction l with
  | nil => simp [Values.get]
  | cons p ps ih =>
    rcases p with ⟨k₀, v₀⟩
    by_cases h : k₀ = k
    · simp [Values.get, h]
    · simp [Values.get, h, ih]

theorem Values.get_filter_self (q : Values) (k : String) :
    Values.get (List.filter (fun p => p.1 ≠ k) q) k = none := by
  induction q with
  | nil => simp [Values.get]
  | cons p ps ih =>
    rcases p with ⟨k₀, v₀⟩
    by_cases h : k₀ = k
    · simpa [List.filter_cons, h] using ih
    · simpa [List.filter_cons, h, Values.get] using ih

theorem Values.get_filter_ne (q : Values) (k' k : String) (h : k' ≠ k) :
    Values.get (List.filter (fun p => p.1 ≠ k') q) k = Values.get q k := by
  induction q with
  | nil => simp
  | cons p ps ih =>
    rcases p with ⟨k₀, v₀⟩
    by_cases h0 : k₀ = k'
    · have hk : k₀ ≠ k := by
        rw [h0]
        exact h
      simpa [List.filter_cons, h0, Values.get, hk, h] using ih
    · by_cases hk : k₀ = k
      · subst hk
        simp [List.filter_cons, h0, Values.get]
      · simpa [List.filter_cons, h0, Values.get, hk] using ih

theorem Values.get_set_same (q : Values) (k v : String) :
    Values.get (Values.set q k v) k = some v := by
  rw [Values.set, Values.get_append, Values.get_filter_self]
  simp [Values.get, Option.orElse]

theorem Values.get_set_ne (q : Values) (k' v k : String) (h : k' ≠ k) :
    Values.get (Values.set q k' v) k = Values.get q k := by
  rw [Values.set, Values.get_append, Values.get_filter_ne q k' k h]
  cases hg : Values.get q k <;> simp [Values.get, h]

/-! ### String and encoding helper lemmas -/

theorem appendMidNeEmpty (a m b : String) (hm : m ≠ "") : a ++ m ++ b ≠ "" := by
  intro h
  have h2 := congrArg String.length h
  simp [String.length_append] at h2
  apply hm
  have hm0 : m.length = 0 := h2.1.2
  rcases m with ⟨l⟩
  rw [String.length_mk] at hm0
  rw [List.length_eq_zero.mp hm0]

theorem hostMsgNe (msg : String) :
    "could not retrieve an active host: " ++ msg ≠
      "no active hosts available to generate key for the specified criteria" := by
  intro h
  have h2 : (("could not retrieve an active host: " ++ msg).data).head? =
      ("no active hosts available to generate key for the specified criteria".data).head? := by
    rw [h]
  have e1 : (("could not retrieve an active host: " ++ msg).data).head? = some 'c' := rfl
  rw [e1] at h2
  exact absurd (Option.some.inj h2.symm) (by decide)

theorem freeHostMsgNe (msg : String) :
    "could not retrieve an active free host: " ++ msg ≠
      "no active free hosts available to generate key" := by
  intro h
  have h2 : (("could not retrieve an active free host: " ++ msg).data).head? =
      ("no active free hosts available to generate key".data).head? := by
    rw [h]
  have e1 : (("could not retrieve an active free host: " ++ msg).data).head? = some 'c' := rfl
  rw [e1] at h2
  exact absurd (Option.some.inj h2.symm) (by decide)

theorem insertByKey_ne_nil (p : String × String) (l : Values) : insertByKey p l ≠ [] := by
  cases l with
  | nil => simp [insertByKey]
  | cons q qs =>
    rw [insertByKey]
    split <;> simp

theorem sortByKey_ne_nil (q : Values) (hq : q ≠ []) : sortByKey q ≠ [] := by
  cases q with
  | nil => exact absurd rfl hq
  | cons p ps =>
    rw [sortByKey]
    exact insertByKey_ne_nil p (sortByKey ps)

theorem encode_ne_empty (q : Values) (hq : q ≠ []) : Values.encode q ≠ "" := by
  rw [Values.encode]
  rcases hsort : sortByKey q with _ | ⟨p, ps⟩
  · exact absurd hsort (sortByKey_ne_nil q hq)
  · rcases ps with _ | ⟨p2, ps2⟩
    · simp only [List.map_cons, List.map_nil, joinAmp]
      exact appendMidNeEmpty _ "=" _ (by decide)
    · simp only [List.map_cons, joinAmp]
      exact appendMidNeEmpty _ "&" _ (by decide)

theorem set_ne_nil (q : Values) (k v : String) : Values.set q k v ≠ [] := by
  simp [Values.set]

/-- Every successfully encoded URL starts with `vless://<clientID>@`. -/
theorem construct_ok_prefix (uid : String) (host : Host) (remarks url : String)
    (h : constructVlessURL uid host remarks = .ok url) :
    ∃ rest, url = "vless://" ++ uid ++ "@" ++ rest := by
  cases hv : vlessQueryParams host with
  | error e =>
    unfold constructVlessURL at h
    rw [hv] at h
    cases h
  | ok qp =>
    unfold constructVlessURL at h
    rw [hv] at h
    simp only [] at h
    by_cases hq : (Values.encode qp != "") = true
    · rw [hq] at h
      simp only [if_true] at h
      by_cases hrm : (remarks != "") = true
      · rw [hrm] at h
        simp only [if_true] at h
        cases h
        exact ⟨host.Address ++ ":" ++ host.Port ++ "?" ++ Values.encode qp
          ++ "#" ++ pathEscape remarks, by simp [String.append_assoc]⟩
      · simp only [Bool.not_eq_true] at hrm
        rw [hrm] at h
        simp only [Bool.false_eq_true, if_false] at h
        cases h
        exact ⟨host.Address ++ ":" ++ host.Port ++ "?" ++ Values.encode qp,
          by simp [String.append_assoc]⟩
    · simp only [Bool.not_eq_true] at hq
      rw [hq] at h
      simp only [Bool.false_eq_true, if_false] at h
      by_cases hrm : (remarks != "") = true
      · rw [hrm] at h
        simp only [if_true] at h
        cases h
        exact ⟨host.Address ++ ":" ++ host.Port ++ "#" ++ pathEscape remarks,
          by simp [String.append_assoc]⟩
      · simp only [Bool.not_eq_true] at hrm
        rw [hrm] at h
        simp only [Bool.false_eq_true, if_false] at h
        cases h
        exact ⟨host.Address ++ ":" ++ host.Port, by simp [String.append_assoc]⟩

/-! ### Claim theorems -/

/-- C1: key encoding (`constructVlessURL`) returns an error if and only if
the host's security type equals "reality" case-insensitively and the host's
public key is empty; in the error case no URL is produced (the `Except` is
`error`), and every other host yields a URL string. -/
theorem claim_C1 (uid : String) (host : Host) (remarks : String) :
    ((∃ e, constructVlessURL uid host remarks = .error e) ↔
      (stringToLower host.SecurityType = "reality" ∧ host.PublicKey = ""))
    ∧ (¬(stringToLower host.SecurityType = "reality" ∧ host.PublicKey = "") →
        ∃ url, constructVlessURL uid host remarks = .ok url) := by
  have hcond : (stringToLower host.SecurityType == "reality" && host.PublicKey == "") = true ↔
      (stringToLower host.SecurityType = "reality" ∧ host.PublicKey = "") := by
    simp
  cases hg : (stringToLower host.SecurityType == "reality" && host.PublicKey == "") with
  | true =>
    have hq : constructVlessURL uid host remarks = .error ("selected host (ID: "
        ++ toString host.ID ++ ") is configured for Reality but missing public key (pbk)") := by
      simp [constructVlessURL, vlessQueryParams, hg]
    refine ⟨⟨fun _ => hcond.mp hg, fun _ => ⟨_, hq⟩⟩, fun hn => absurd (hcond.mp hg) hn⟩
  | false =>
    cases hv : vlessQueryParams host with
    | error e =>
      exfalso
      simp [vlessQueryParams, hg] at hv
    | ok qp =>
      have hok : ∃ url, constructVlessURL uid host remarks = .ok url := by
        simp [constructVlessURL, hv]
      refine ⟨⟨?_, fun hc => absurd (hcond.mpr hc) (by simp [hg])⟩, fun _ => hok⟩
      rintro ⟨e, he⟩
      obtain ⟨url, hu⟩ := hok
      rw [hu] at he
      cases he

/-- C1 witness: Scenario C's host (`reality` with empty public key) satisfies
the error condition and encoding it fails. -/
theorem claim_C1_witness :
    (stringToLower hostBadReality.SecurityType = "reality" ∧ hostBadReality.PublicKey = "")
    ∧ ∃ e, constructVlessURL "u" hostBadReality "x" = .error e :=
  ⟨by decide, (claim_C1 "u" hostBadReality "x").1.mpr (by decide)⟩

/-- C2: if the first host lookup for a present, non-empty country filter
reports record-not-found, both `GenerateVlessKeyForUser` and
`GenerateFreeVlessKey` retry once with the country filter removed and the
same tier flag, and on the retry's success use that host instead of
reporting not-found. -/
theorem claim_C2 (s : KeyServiceRepos) (uid remarks c : String) (u : User) (b : Bool)
    (h hF : Host)
    (huser : s.userRepo uid = .ok u)
    (hsub : s.subscriptionRepo uid = .ok b)
    (hc : c ≠ "")
    (hfirst : s.hostRepo (some c) (some (!b)) = .error .recordNotFound)
    (hretry : s.hostRepo none (some (!b)) = .ok h)
    (hfreeFirst : s.hostRepo (some c) (some true) = .error .recordNotFound)
    (hfreeRetry : s.hostRepo none (some true) = .ok hF) :
    GenerateVlessKeyForUser s uid remarks (some c) =
      (match constructVlessURL u.ID h remarks with
       | .error e => .error e
       | .ok url => .ok { VlessKey := url, HasActiveSubscription := b })
    ∧ GenerateFreeVlessKey s remarks (some c) =
        constructVlessURL FreeTierUserUUID hF remarks := by
  constructor
  · cases b <;>
      simp only [Bool.not_false, Bool.not_true] at hfirst hretry <;>
      simp [GenerateVlessKeyForUser, huser, hsub, countryNonEmpty, hc, hfirst, hretry]
  · simp [GenerateFreeVlessKey, countryNonEmpty, hc, hfreeFirst, hfreeRetry]

/-- C2 witness: Scenario D — a free-tier request for "US" with no
US-filtered host but an unfiltered host online returns the fallback host on
both entry points. -/
theorem claim_C2_witness :
    GenerateVlessKeyForUser reposFallbackW "u" "BittenVPN" (some "US") =
      (match constructVlessURL userA.ID hostA "BittenVPN" with
       | .error e => .error e
       | .ok url => .ok { VlessKey := url, HasActiveSubscription := false })
    ∧ GenerateFreeVlessKey reposFallbackW "BittenVPN" (some "US") =
        constructVlessURL FreeTierUserUUID hostA "BittenVPN" :=
  claim_C2 reposFallbackW "u" "BittenVPN" "US" userA false hostA hostA
    rfl rfl (by decide) rfl rfl rfl rfl

/-- C3: a failing subscription-store check does not fail the request —
`GenerateVlessKeyForUser` behaves exactly as with a successful check
reporting "no active subscription", and any successful result carries
`HasActiveSubscription = false`. -/
theorem claim_C3 (s : KeyServiceRepos) (uid remarks : String) (c : Option String)
    (u : User) (e : RepoError)
    (huser : s.userRepo uid = .ok u)
    (hsub : s.subscriptionRepo uid = .error e) :
    GenerateVlessKeyForUser s uid remarks c =
      GenerateVlessKeyForUser { s with subscriptionRepo := fun _ => .ok false } uid remarks c
    ∧ ∀ r, GenerateVlessKeyForUser s uid remarks c = .ok r →
        r.HasActiveSubscription = false := by
  constructor
  · simp [GenerateVlessKeyForUser, huser, hsub]
  · intro r hr
    unfold GenerateVlessKeyForUser at hr
    rw [huser, hsub] at hr
    simp only [] at hr
    repeat' split at hr
    any_goals (cases hr)
    all_goals simp_all

/-- C3 witness: Scenario F — repositories whose subscription check errors
still generate a key, treated as the free tier. -/
theorem claim_C3_witness :
    GenerateVlessKeyForUser reposSubsFailW "u" "BittenVPN" none =
      GenerateVlessKeyForUser { reposSubsFailW with subscriptionRepo := fun _ => .ok false }
        "u" "BittenVPN" none
    ∧ ∀ r, GenerateVlessKeyForUser reposSubsFailW "u" "BittenVPN" none = .ok r →
        r.HasActiveSubscription = false :=
  claim_C3 reposSubsFailW "u" "BittenVPN" none userA (.infra "subscription store down") rfl rfl

/-- C4: Scenario A — encoding the minimal `none`-security host for client
"00000000-0000-0000-0000-000000000001" with empty remarks yields exactly
`vless://00000000-0000-0000-0000-000000000001@1.2.3.4:443?type=tcp`. -/
theorem claim_C4 : constructVlessURL "00000000-0000-0000-0000-000000000001" hostA "" =
    .ok "vless://00000000-0000-0000-0000-000000000001@1.2.3.4:443?type=tcp" := by
  decide

/-- C5: the `security` query parameter is absent exactly when the host's
security type is empty or the literal "none"; otherwise it is present with
the host's security type as its value. -/
theorem claim_C5 (host : Host) (qp : Values) (h : vlessQueryParams host = .ok qp) :
    ((host.SecurityType = "" ∨ host.SecurityType = "none") →
      Values.get qp "security" = none)
    ∧ ((host.SecurityType ≠ "" ∧ host.SecurityType ≠ "none") →
      Values.get qp "security" = some host.SecurityType) := by
  cases hg : (stringToLower host.SecurityType == "reality" && host.PublicKey == "") with
  | true =>
    exfalso
    simp [vlessQueryParams, hg] at h
  | false =>
    simp only [vlessQueryParams, hg] at h
    simp at h
    subst h
    constructor
    · intro hA
      have hcond : ¬(host.SecurityType ≠ "" ∧ host.SecurityType ≠ "none") := by
        rcases hA with hA | hA <;> simp [hA]
      simp [apply_ite (fun q => Values.get q "security"), Values.get_set_same,
        Values.get_set_ne, Values.get, hcond]
    · intro hB
      simp [apply_ite (fun q => Values.get q "security"), Values.get_set_same,
        Values.get_set_ne, Values.get, hB.1, hB.2]

/-- C5 witness: a `tls` host emits `security=tls`; evaluated at the concrete
parameter list. -/
theorem claim_C5_witness :
    vlessQueryParams hostTLS = .ok [("security", "tls"), ("type", "tcp")]
    ∧ Values.get [("security", "tls"), ("type", "tcp")] "security" = some "tls" :=
  ⟨by decide, (claim_C5 hostTLS [("security", "tls"), ("type", "tcp")] (by decide)).2
    (by decide)⟩

/-- C6: the `type` query parameter is always present; it carries the host's
network type when that is non-empty and the literal "tcp" otherwise. -/
theorem claim_C6 (host : Host) (qp : Values) (h : vlessQueryParams host = .ok qp) :
    Values.get qp "type" ≠ none
    ∧ (host.Network ≠ "" → Values.get qp "type" = some host.Network)
    ∧ (host.Network = "" → Values.get qp "type" = some "tcp") := by
  cases hg : (stringToLower host.SecurityType == "reality" && host.PublicKey == "") with
  | true =>
    exfalso
    simp [vlessQueryParams, hg] at h
  | false =>
    simp only [vlessQueryParams, hg] at h
    simp at h
    by_cases hn : host.Network = ""
    · simp [hn] at h
      subst h
      simp [Values.get_set_same, hn]
    · simp [hn] at h
      subst h
      simp [Values.get_set_same, hn]

/-- C6 witness: the empty-network host gets `type=tcp`; evaluated at the
concrete parameter list. -/
theorem claim_C6_witness :
    vlessQueryParams hostA = .ok [("type", "tcp")]
    ∧ Values.get [("type", "tcp")] "type" = some "tcp" :=
  ⟨by decide, (claim_C6 hostA [("type", "tcp")] (by decide)).2.2 (by decide)⟩

/-- C7: when no eligible host exists — including after the country-relaxation
retry — both entry points return the distinguished "no active hosts" error,
while an infrastructure failure of the host store is reported as a different,
wrapped error; the two error messages never coincide. -/
theorem claim_C7 (s₁ s₂ : KeyServiceRepos) (uid remarks : String) (c : Option String)
    (u₁ u₂ : User) (b₁ b₂ : Bool) (msg : String)
    (hu₁ : s₁.userRepo uid = .ok u₁)
    (hs₁ : s₁.subscriptionRepo uid = .ok b₁)
    (hfirst₁ : s₁.hostRepo c (some (!b₁)) = .error .recordNotFound)
    (hretry₁ : countryNonEmpty c = true → s₁.hostRepo none (some (!b₁)) = .error .recordNotFound)
    (hu₂ : s₂.userRepo uid = .ok u₂)
    (hs₂ : s₂.subscriptionRepo uid = .ok b₂)
    (hinfra₂ : s₂.hostRepo c (some (!b₂)) = .error (.infra msg))
    (hfree₁ : s₁.hostRepo c (some true) = .error .recordNotFound)
    (hfreeRetry₁ : countryNonEmpty c = true → s₁.hostRepo none (some true) = .error .recordNotFound)
    (hfree₂ : s₂.hostRepo c (some true) = .error (.infra msg)) :
    GenerateVlessKeyForUser s₁ uid remarks c =
      .error "no active hosts available to generate key for the specified criteria"
    ∧ GenerateVlessKeyForUser s₂ uid remarks c =
        .error ("could not retrieve an active host: " ++ msg)
    ∧ GenerateFreeVlessKey s₁ remarks c =
        .error "no active free hosts available to generate key"
    ∧ GenerateFreeVlessKey s₂ remarks c =
        .error ("could not retrieve an active free host: " ++ msg)
    ∧ "could not retrieve an active host: " ++ msg ≠
        "no active hosts available to generate key for the specified criteria"
    ∧ "could not retrieve an active free host: " ++ msg ≠
        "no active free hosts available to generate key" := by
  refine ⟨?_, ?_, ?_, ?_, hostMsgNe msg, freeHostMsgNe msg⟩
  · by_cases hcn : countryNonEmpty c = true
    · cases b₁ <;>
        simp only [Bool.not_false, Bool.not_true] at hfirst₁ hretry₁ <;>
        simp [GenerateVlessKeyForUser, hu₁, hs₁, hfirst₁, hretry₁ hcn, hcn]
    · cases b₁ <;>
        simp only [Bool.not_false, Bool.not_true] at hfirst₁ hretry₁ <;>
        simp [GenerateVlessKeyForUser, hu₁, hs₁, hfirst₁, hcn]
  · cases b₂ <;>
      simp only [Bool.not_false, Bool.not_true] at hinfra₂ <;>
      simp [GenerateVlessKeyForUser, hu₂, hs₂, hinfra₂]
  · by_cases hcn : countryNonEmpty c = true
    · simp [GenerateFreeVlessKey, hfree₁, hfreeRetry₁ hcn, hcn]
    · simp [GenerateFreeVlessKey, hfree₁, hcn]
  · simp [GenerateFreeVlessKey, hfree₂]

/-- C7 witness: Scenario E — no country filter, a paid user against an empty
host pool gets the not-found error, and infrastructure failure gets the
wrapped error. -/
theorem claim_C7_witness :
    GenerateVlessKeyForUser reposNotFoundW "u" "BittenVPN" none =
      .error "no active hosts available to generate key for the specified criteria"
    ∧ GenerateVlessKeyForUser reposInfraW "u" "BittenVPN" none =
        .error ("could not retrieve an active host: " ++ "connection refused")
    ∧ GenerateFreeVlessKey reposNotFoundW "BittenVPN" none =
        .error "no active free hosts available to generate key"
    ∧ GenerateFreeVlessKey reposInfraW "BittenVPN" none =
        .error ("could not retrieve an active free host: " ++ "connection refused")
    ∧ "could not retrieve an active host: " ++ "connection refused" ≠
        "no active hosts available to generate key for the specified criteria"
    ∧ "could not retrieve an active free host: " ++ "connection refused" ≠
        "no active free hosts available to generate key" :=
  claim_C7 reposNotFoundW reposInfraW "u" "BittenVPN" none userA userA true false
    "connection refused" rfl rfl rfl (fun h => absurd h (by decide)) rfl rfl rfl rfl
    (fun h => absurd h (by decide)) rfl

/-- C8: `GenerateFreeVlessKey` never consults the user or subscription store
(its result depends only on the host repository), and every URL it produces
embeds the fixed free-tier placeholder UUID as the client identifier. -/
theorem claim_C8 (s s' : KeyServiceRepos) (remarks : String) (c : Option String)
    (hsame : s.hostRepo = s'.hostRepo) :
    GenerateFreeVlessKey s remarks c = GenerateFreeVlessKey s' remarks c
    ∧ ∀ url, GenerateFreeVlessKey s remarks c = .ok url →
        ∃ rest, url = "vless://" ++ FreeTierUserUUID ++ "@" ++ rest := by
  constructor
  · simp [GenerateFreeVlessKey, hsame]
  · intro url hu
    unfold GenerateFreeVlessKey at hu
    simp only [] at hu
    repeat' split at hu
    all_goals (try (cases hu))
    all_goals (try (exact construct_ok_prefix _ _ _ _ hu))

/-- C8 witness: free-key generation gives the same URL under failing user and
subscription stores, and that URL starts with the placeholder UUID. -/
theorem claim_C8_witness :
    GenerateFreeVlessKey reposFreeW "" none = GenerateFreeVlessKey reposFreeAltW "" none
    ∧ ∃ rest, "vless://5ccc43c4-3c3e-4220-a878-761aa1182dd9@1.2.3.4:443?type=tcp" =
        "vless://" ++ FreeTierUserUUID ++ "@" ++ rest :=
  ⟨(claim_C8 reposFreeW reposFreeAltW "" none rfl).1,
    (claim_C8 reposFreeW reposFreeAltW "" none rfl).2
      "vless://5ccc43c4-3c3e-4220-a878-761aa1182dd9@1.2.3.4:443?type=tcp" (by decide)⟩

/-- C9: the two security-type comparisons differ in case handling — the
`security` suppression is a literal comparison with "none" while the Reality
rules lowercase first — so a host with security type "NONE" emits
`security=NONE`, and a host with "Reality" and a public key emits both
`security=Reality` and `pbk`. -/
theorem claim_C9 :
    vlessQueryParams hostNONE = .ok [("security", "NONE"), ("type", "tcp")]
    ∧ constructVlessURL "u" hostNONE "" =
        .ok "vless://u@1.2.3.4:443?security=NONE&type=tcp"
    ∧ vlessQueryParams hostRealityPBK =
        .ok [("security", "Reality"), ("pbk", "PBK123"), ("type", "tcp")]
    ∧ constructVlessURL "u" hostRealityPBK "" =
        .ok "vless://u@1.2.3.4:443?pbk=PBK123&security=Reality&type=tcp" := by
  refine ⟨by decide, by decide, by decide, by decide⟩

/-- C10: the encoded query string of a successfully encoded host is never
empty (the `type` parameter is always set), so the produced URL always has a
`?` query component and the query-less formatting branch is unreachable. -/
theorem claim_C10 (uid : String) (host : Host) (remarks : String) (qp : Values)
    (h : vlessQueryParams host = .ok qp) :
    Values.encode qp ≠ ""
    ∧ ∀ url, constructVlessURL uid host remarks = .ok url →
        ∃ pre post, url = pre ++ "?" ++ post := by
  have hqp : qp ≠ [] := by
    cases hg : (stringToLower host.SecurityType == "reality" && host.PublicKey == "") with
    | true =>
      exfalso
      simp [vlessQueryParams, hg] at h
    | false =>
      simp only [vlessQueryParams, hg] at h
      simp at h
      by_cases hn : host.Network = ""
      · simp [hn] at h
        rw [← h]
        exact set_ne_nil _ _ _
      · simp [hn] at h
        rw [← h]
        exact set_ne_nil _ _ _
  have henc : Values.encode qp ≠ "" := encode_ne_empty qp hqp
  refine ⟨henc, ?_⟩
  intro url hu
  unfold constructVlessURL at hu
  rw [h] at hu
  simp only [] at hu
  have hb : (Values.encode qp != "") = true := by
    simpa using henc
  rw [hb] at hu
  simp only [if_true] at hu
  by_cases hrm : (remarks != "") = true
  · rw [hrm] at hu
    simp only [if_true] at hu
    cases hu
    exact ⟨"vless://" ++ uid ++ "@" ++ host.Address ++ ":" ++ host.Port,
      Values.encode qp ++ "#" ++ pathEscape remarks, by simp [String.append_assoc]⟩
  · simp only [Bool.not_eq_true] at hrm
    rw [hrm] at hu
    simp only [Bool.false_eq_true, if_false] at hu
    cases hu
    exact ⟨"vless://" ++ uid ++ "@" ++ host.Address ++ ":" ++ host.Port,
      Values.encode qp, rfl⟩

/-- C10 witness: Scenario A's host has the non-empty query `type=tcp` and its
URL contains the `?` component. -/
theorem claim_C10_witness :
    Values.encode [("type", "tcp")] ≠ ""
    ∧ ∃ pre post,
        "vless://00000000-0000-0000-0000-000000000001@1.2.3.4:443?type=tcp" =
          pre ++ "?" ++ post :=
  ⟨(claim_C10 "00000000-0000-0000-0000-000000000001" hostA "" [("type", "tcp")]
      (by decide)).1,
    (claim_C10 "00000000-0000-0000-0000-000000000001" hostA "" [("type", "tcp")]
      (by decide)).2
      "vless://00000000-0000-0000-0000-000000000001@1.2.3.4:443?type=tcp" (by decide)⟩
